import Mathlib

/-!
Shallow embedding of `src/services/cua_agent.py` (repository `mzieniukbw/tap`).

The script is orchestration glue around three external collaborators: a
containerized "computer" (create / start / trace / stop), an LLM agent loop
(a stream of incremental results), and GitHub's REST API.  The embedding
represents each external call's outcome as data in an environment record and
translates the script's own control flow — the timeout/cancellation wrapper,
the cleanup (`finally`) block, the artifact organizer, the stdin/credential
checks of `main`, and the three GitHub tool adapters — into executable Lean
functions.  Machine-level side effects (printing to stderr, the filesystem)
are represented by an explicit event trace.
-/

namespace CuaAgent

/-- JSON values: models the Python dict/list/str/int/bool payloads that the
GitHub tool adapters build and then serialize with `json.dumps`. -/
inductive Json where
  | null
  | bool (b : Bool)
  | num (n : Int)
  | str (s : String)
  | arr (elems : List Json)
  | obj (fields : List (String × Json))

/-- Dictionary lookup `d[k]` / `d.get(k)`: first binding of the key wins. -/
def Json.getField : Json → String → Option Json
  | .obj fields, k => (fields.find? (fun p => p.1 == k)).map Prod.snd
  | _, _ => none

/-- String payload of a JSON string value. -/
def Json.getStr : Json → Option String
  | .str s => some s
  | _ => none

/-- One-field error object `{"error": msg}` (the adapters' `json.dumps({"error": ...})`). -/
def errObj (msg : String) : Json := .obj [("error", .str msg)]

/-- Two-field error object `{"error": e, "message": m}`. -/
def errObj2 (e m : String) : Json := .obj [("error", .str e), ("message", .str m)]

/-! ## Workflow-run URL parsing (`list_github_artifacts`, lines 169-177)

The Python code runs `re.search(r'/actions/runs/(\d+)', workflow_run_id)`
when the argument contains `"github.com"`.  We embed the regex search for
this fixed pattern directly: the leftmost position where the literal
`/actions/runs/` is followed by at least one digit, capturing the maximal
digit run (greedy `\d+`). -/

/-- The literal part of the pattern `/actions/runs/(\d+)`, as a character
list (it spells `/actions/runs/`). -/
def runsLit : List Char :=
  ['/', 'a', 'c', 't', 'i', 'o', 'n', 's', '/', 'r', 'u', 'n', 's', '/']

/-- Does `pat` occur verbatim at the head of `text`? -/
def matchesAt : List Char → List Char → Bool
  | [], _ => true
  | _ :: _, [] => false
  | p :: ps, c :: cs => p == c && matchesAt ps cs

/-- Python's `s.startswith(pre)` (and the head test of glob patterns). -/
def strStartsWith (s pre : String) : Bool := matchesAt pre.data s.data

/-- Python's `s.endswith(suf)` (extension tests of the organizer's globs). -/
def strEndsWith (s suf : String) : Bool := matchesAt suf.data.reverse s.data.reverse

/-- Does `pat` occur anywhere in the character list (Python's `in` on str)? -/
def hasSubList (pat : List Char) : List Char → Bool
  | [] => matchesAt pat []
  | c :: cs => matchesAt pat (c :: cs) || hasSubList pat cs

/-- Python's `pat in s` substring test. -/
def strHasSub (s pat : String) : Bool := hasSubList pat.data s.data

/-- Is the head of the list a decimal digit (the `\d+` must match at least one)? -/
def isDigitHead : List Char → Bool
  | [] => false
  | c :: _ => c.isDigit

/-- `re.search(r'/actions/runs/(\d+)', s)`: the captured digits of the
leftmost match, scanning positions left to right. -/
def findRunsMatch : List Char → Option (List Char)
  | [] => none
  | c :: cs =>
      if matchesAt runsLit (c :: cs) && isDigitHead (List.drop runsLit.length (c :: cs)) then
        some (List.takeWhile Char.isDigit (List.drop runsLit.length (c :: cs)))
      else
        findRunsMatch cs

/-- Lines 169-177 of `list_github_artifacts`: a bare identifier is used as-is;
a string containing `"github.com"` is treated as a URL and the run ID is
extracted by the regex search, with a descriptive error when it fails. -/
def parseRunId (workflow_run_id : String) : Except String String :=
  if strHasSub workflow_run_id "github.com" then
    match findRunsMatch workflow_run_id.data with
    | some ds => .ok (String.mk ds)
    | none => .error ("Could not parse workflow run ID from URL: " ++ workflow_run_id ++
        ". Expected format: https://github.com/owner/repo/actions/runs/ID")
  else
    .ok workflow_run_id

/-! ## Artifact organizer (`execute_scenario` finally block, lines 586-655)

The code globs `*.png`, `*.mp4`, `*.webm`, `*.json` at the top level of the
trace directory and moves each matched file, independently wrapped in its own
`try/except`, into `screenshots/`, `videos/`, `metadata/`.  `glob.glob` with
a `*` pattern skips names that start with a dot.  The directory is modelled
as the list of its top-level file names; `moveFails` is the set of files
whose `shutil.move` raises (those stay in place and are logged). -/

/-- Matching of a file name by the glob pattern `*<ext>`: the name must not
start with a dot (glob hides dotfiles from `*`) and must end with `ext`. -/
def globMatch (ext : String) (f : String) : Bool :=
  !(strStartsWith f ".") && strEndsWith f ext

/-- `glob.glob(os.path.join(trace_path, "*" ++ ext))` restricted to the given
top-level names, keeping directory order. -/
def globFiles (files : List String) (ext : String) : List String :=
  files.filter (globMatch ext)

/-- Is the name matched by any of the four glob patterns of the organizer? -/
def matchedByOrganizer (f : String) : Bool :=
  globMatch ".png" f || globMatch ".mp4" f || globMatch ".webm" f || globMatch ".json" f

/-- Final directory contents after the organizer runs: which names ended up in
`screenshots/`, `videos/`, `metadata/`, which remained at the top level, and
which moves failed (and were logged). -/
structure OrganizeResult where
  screenshots : List String
  videos : List String
  metadata : List String
  leftover : List String
  failed : List String
deriving DecidableEq, Repr

/-- Lines 596-635: partition the top-level files of the trace directory by
extension.  Each move is attempted independently; a file in `moveFails`
raises, is logged, and stays at the top level. -/
def organizeTrace (files : List String) (moveFails : List String) : OrganizeResult :=
  let screenshots := globFiles files ".png"
  let allVideos := globFiles files ".mp4" ++ globFiles files ".webm"
  let metadataFiles := globFiles files ".json"
  let moved := fun f => !(moveFails.contains f)
  { screenshots := screenshots.filter moved
    videos := allVideos.filter moved
    metadata := metadataFiles.filter moved
    leftover := files.filter (fun f => !(matchedByOrganizer f) || moveFails.contains f)
    failed := screenshots.filter (fun f => moveFails.contains f)
      ++ allVideos.filter (fun f => moveFails.contains f)
      ++ metadataFiles.filter (fun f => moveFails.contains f) }

/-! ## The agent phase of `execute_scenario` (lines 485-549)

`run_agent` (lines 500-521) iterates `async for result in agent.run(messages)`.
For each incremental result it first checks the elapsed wall-clock time
(`elapsed > timeout_seconds` raises `asyncio.TimeoutError`), then appends every
`text` content block of every `message` output item to `output_messages`.
The whole task is raced against the deadline with
`asyncio.wait_for(agent_task, timeout=timeout_seconds)` and, on expiry,
cancelled with a 5-second grace wait (`asyncio.wait_for(agent_task, timeout=5.0)`).
Time is modelled in whole seconds (`Nat`). -/

/-- One content block of a message output item (`{"type": ..., "text": ...}`);
`item.get("text", "")` makes the text total. -/
structure ContentBlock where
  type : String
  text : String
deriving DecidableEq, Repr

/-- One item of a result's `output` list (`{"type": ..., "content": [...]}`). -/
structure OutputItem where
  type : String
  content : List ContentBlock
deriving DecidableEq, Repr

/-- One incremental result yielded by `agent.run`, tagged with the elapsed
wall-clock time (seconds since loop start) at which it is received. -/
structure AgentChunk where
  arrival : Nat
  output : List OutputItem
deriving DecidableEq, Repr

/-- Lines 511-518: the text segments a single chunk contributes, in order —
every `text` content block of every `message` output item. -/
def chunkTexts (c : AgentChunk) : List String :=
  (c.output.filter (fun item => item.type == "message")).flatMap
    (fun item => (item.content.filter (fun b => b.type == "text")).map ContentBlock.text)

/-- Lines 503-518: the contents of `output_messages` after the loop stops.
Chunks are processed in arrival order; on the first chunk received with
`elapsed > timeout_seconds` the per-iteration check raises before the chunk's
items are read, so that chunk and everything after it contribute nothing,
while earlier segments stay in the (shared) buffer. -/
def collectTexts (timeout_seconds : Nat) : List AgentChunk → List String
  | [] => []
  | c :: rest =>
      if timeout_seconds < c.arrival then []
      else chunkTexts c ++ collectTexts timeout_seconds rest

/-- Behaviour of the external agent loop in one run, as observed by the
timeout wrapper:
* `completes`: yields `chunks` and finishes normally at `doneTime`;
* `runsPast`: yields `chunks`, is still running when the deadline fires, and
  acknowledges the explicit `cancel()` after `cancelAck` further seconds
  (`run_agent` re-raises `asyncio.CancelledError`, lines 519-521);
* `raisesAt`: yields `chunks` and then raises a non-timeout exception with
  message `msg` at `failTime`. -/
inductive AgentBehavior where
  | completes (chunks : List AgentChunk) (doneTime : Nat)
  | runsPast (chunks : List AgentChunk) (cancelAck : Nat)
  | raisesAt (chunks : List AgentChunk) (failTime : Nat) (msg : String)
deriving DecidableEq, Repr

/-- The chunks a behaviour yields. -/
def AgentBehavior.chunks : AgentBehavior → List AgentChunk
  | .completes cs _ => cs
  | .runsPast cs _ => cs
  | .raisesAt cs _ _ => cs

/-- The dictionary returned by `execute_scenario`.  `timed_out = none` models
the absence of the `"timed_out"` key (the error-path return at lines 554-558
has no such key; `main` reads it with `result.get("timed_out")`). -/
structure ExecResult where
  status : String
  output : Option String
  error : Option String
  timed_out : Option Bool
deriving DecidableEq, Repr

/-- The grace period given to the cancelled agent task (line 540). -/
def graceSeconds : Nat := 5

/-- The error-path result (lines 551-558): note the missing `timed_out` key
and `output = None`. -/
def errorResult (msg : String) : ExecResult :=
  { status := "error", output := none, error := some ("Execution failed: " ++ msg),
    timed_out := none }

/-- The timeout error message (line 532). -/
def timeoutMessage (timeout_seconds : Nat) : String :=
  "Execution timed out after " ++ toString timeout_seconds ++ " seconds (artifacts preserved)"

/-- The result returned after the deadline fired (lines 529-549): status
`warning`, the partial output joined by newlines, `timed_out` true. -/
def timeoutResult (timeout_seconds : Nat) (chunks : List AgentChunk) : ExecResult :=
  { status := "warning",
    output := some (String.intercalate "\n" (collectTexts timeout_seconds chunks)),
    error := some (timeoutMessage timeout_seconds),
    timed_out := some true }

/-- The successfully-completed result (lines 527-549). -/
def successResult (timeout_seconds : Nat) (chunks : List AgentChunk) : ExecResult :=
  { status := "success",
    output := some (String.intercalate "\n" (collectTexts timeout_seconds chunks)),
    error := none,
    timed_out := some false }

/-- Lines 523-549: race the agent task against the deadline.  Returns the
result of the `try/except` around `wait_for` together with the elapsed time at
which that code finishes.
* A task finishing at `doneTime ≤ timeout_seconds` completes the `wait_for`
  normally (success).  A later finish means the outer `wait_for` fired at the
  deadline; the explicit `cancel()` plus the 5-second grace `wait_for` bound
  the remaining wait by `min`.
* A task still running at the deadline is cancelled; it acknowledges within
  `cancelAck` seconds but the grace `wait_for` forces termination at 5.
* A non-timeout exception raised at `failTime ≤ timeout_seconds` is re-raised
  by `wait_for` and reaches the outer `except Exception` (error).  Raised
  during the grace window, it escapes the
  `except (asyncio.CancelledError, asyncio.TimeoutError)` at line 541 and
  again reaches the outer `except Exception`.  After the grace window the
  task has been abandoned and the warning result stands. -/
def agentPhase (timeout_seconds : Nat) : AgentBehavior → ExecResult × Nat
  | .completes chunks doneTime =>
      if doneTime ≤ timeout_seconds then
        (successResult timeout_seconds chunks, doneTime)
      else
        (timeoutResult timeout_seconds chunks,
         timeout_seconds + min (doneTime - timeout_seconds) graceSeconds)
  | .runsPast chunks cancelAck =>
      (timeoutResult timeout_seconds chunks, timeout_seconds + min cancelAck graceSeconds)
  | .raisesAt chunks failTime msg =>
      if failTime ≤ timeout_seconds then
        (errorResult msg, failTime)
      else if failTime ≤ timeout_seconds + graceSeconds then
        (errorResult msg, failTime)
      else
        (timeoutResult timeout_seconds chunks, timeout_seconds + graceSeconds)

/-! ## The whole of `execute_scenario` (lines 355-665) -/

/-- Observable external effects of one run, in program order.  An event marks
the *invocation* of the corresponding operation (it is recorded whether or not
the call then fails). -/
inductive Event where
  | createContainer
  | startContainer
  | startTrace
  | stopTraceCall
  | organizeCall (files : List String)
  | warnLog (msg : String)
  | stopContainer
deriving DecidableEq, Repr

/-- Outcome of `computer.tracing.stop({'format': 'dir'})` (line 568):
it raises, returns a falsy/nonexistent path, or returns an existing directory
whose top-level files are `files`.  (A returned path that does not exist is
skipped by the `if trace_path and os.path.exists(trace_path)` guard exactly
like a `None` path, so both are `noDir`.) -/
inductive TraceStopOutcome where
  | fails (msg : String)
  | noDir
  | dir (files : List String)
deriving DecidableEq, Repr

/-- Outcomes of every external call one run makes, fixed up front: which calls
raise (with what message) and what the collaborators produce. -/
structure Env where
  /-- `Computer(...)` (lines 390-397) raises before `computer` is assigned. -/
  createFail : Option String
  /-- `await computer.run()` (line 401) raises. -/
  startFail : Option String
  /-- `await computer.tracing.start(...)` (line 438) raises. -/
  traceStartFail : Option String
  /-- behaviour of `agent.run(messages)`. -/
  agent : AgentBehavior
  /-- outcome of `computer.tracing.stop(...)` in the finally block. -/
  traceStop : TraceStopOutcome
  /-- files whose `shutil.move` raises during organization. -/
  moveFails : List String
  /-- `await computer.stop()` (line 658) raises. -/
  stopFail : Option String
deriving DecidableEq, Repr

/-- The `finally` block (lines 560-665).  When `computer` is `None` it does
nothing.  Otherwise: `tracing.stop` in its own `try/except` (a failure is
logged, lines 571-572); if a trace directory exists, the organizer runs, each
failed move logged (lines 614-615, 624-625, 634-635), the whole organize step
in its own `try/except` (lines 654-655); then `computer.stop()` is invoked,
a failure caught by the outer `except Exception` and logged (lines 664-665).
Every exception inside the block is caught, so the block always completes and
cannot replace the function's return value. -/
def cleanup (env : Env) : List Event :=
  match env.createFail with
  | some _ => []
  | none =>
    [Event.stopTraceCall]
    ++ (match env.traceStop with
        | .fails m => [Event.warnLog ("Failed to stop trace: " ++ m)]
        | _ => [])
    ++ (match env.traceStop with
        | .dir files =>
            Event.organizeCall files
              :: (organizeTrace files env.moveFails).failed.map
                  (fun f => Event.warnLog ("Failed to move " ++ f))
        | _ => [])
    ++ [Event.stopContainer]
    ++ (match env.stopFail with
        | some m => [Event.warnLog ("Warning: Failed to stop container: " ++ m)]
        | none => [])

/-- What one call of `execute_scenario` produces: the returned dictionary, the
trace of external effects, and the elapsed time (seconds) at which the
`try/except` body finished.  The mocked external calls of the cleanup path are
modelled as instantaneous, as in the spec's wall-clock property. -/
structure RunOutcome where
  result : ExecResult
  events : List Event
  finishTime : Nat
deriving DecidableEq, Repr

/-- Lines 355-665.  The body runs up to the first raising step; any exception
in the body is converted by `except Exception` (lines 551-558) into the error
result; the `finally` block then always runs.  `instructions` becomes the
single initial user message (lines 486-491) and does not otherwise influence
the control flow. -/
def execute_scenario (env : Env) (instructions : String) (timeout_seconds : Nat) :
    RunOutcome :=
  let _ := instructions
  match env.createFail with
  | some m => { result := errorResult m, events := cleanup env, finishTime := 0 }
  | none =>
    match env.startFail with
    | some m =>
        { result := errorResult m,
          events := [Event.createContainer, Event.startContainer] ++ cleanup env,
          finishTime := 0 }
    | none =>
      match env.traceStartFail with
      | some m =>
          { result := errorResult m,
            events := [Event.createContainer, Event.startContainer, Event.startTrace]
              ++ cleanup env,
            finishTime := 0 }
      | none =>
        let phase := agentPhase timeout_seconds env.agent
        { result := phase.1,
          events := [Event.createContainer, Event.startContainer, Event.startTrace]
            ++ cleanup env,
          finishTime := phase.2 }

/-! ## `main` (lines 668-714) -/

/-- Python's whitespace set for `str.strip()` (ASCII part). -/
def pyWhitespace : List Char := [' ', '\t', '\n', '\r', '\x0b', '\x0c']

/-- Python's `s.strip()`. -/
def pyStrip (s : String) : String :=
  String.mk (((s.data.dropWhile (fun c => pyWhitespace.contains c)).reverse.dropWhile
    (fun c => pyWhitespace.contains c)).reverse)

/-- Python truthiness test `not x` for an optional string (unset or empty). -/
def falsyStr : Option String → Bool
  | none => true
  | some s => s == ""

/-- Lines 702-710: exit code 0 for `success` and `warning` (soft timeout),
exit code 1 otherwise. -/
def exitCode (r : ExecResult) : Nat :=
  if r.status == "success" || r.status == "warning" then 0 else 1

/-- Process-level inputs of `main`: the credential, the raw standard input,
the configured timeout, and the external-call outcomes of the run. -/
structure MainEnv where
  anthropic_api_key : Option String
  stdin : String
  timeout_seconds : Nat
  scenario : Env
deriving DecidableEq, Repr

/-- Exit code and effect trace of one process run. -/
structure MainOutcome where
  exit : Nat
  events : List Event
deriving DecidableEq, Repr

/-- Lines 668-710: `main` exits 1 before any sandbox work if
`ANTHROPIC_API_KEY` is falsy (line 677) or the stripped stdin text is empty
(line 691); otherwise it runs `execute_scenario` and exits 0 exactly when the
status is `success` or `warning`. -/
def mainRun (menv : MainEnv) : MainOutcome :=
  if falsyStr menv.anthropic_api_key then { exit := 1, events := [] }
  else
    let instructions := pyStrip menv.stdin
    if instructions == "" then { exit := 1, events := [] }
    else
      let run := execute_scenario menv.scenario instructions menv.timeout_seconds
      { exit := exitCode run.result, events := run.events }

/-! ## GitHub tool adapters (lines 49-331)

Each adapter checks credentials/context from the environment, performs HTTP
requests via `requests`, and returns `json.dumps` of a dictionary; every
exception is caught by the `except` ladder (`Timeout`, `RequestException`,
`Exception`) and converted into an error dictionary.  The embedding returns
the dictionary as a `Json` value (serialization is injective on this data and
adds nothing to the claims).  Internal raising operations (`response.json()`,
`d[key]` lookups, slicing a non-string) are threaded through
`Except String` and the trailing catch-all converts them to
`{"error": "Unexpected error: ..."}`; the carried message stands in for
Python's `str(e)`. -/

/-- GitHub-related process environment read by the adapters. `""` models an
unset variable read with `os.getenv(name, "")`. -/
structure GhEnv where
  token : Option String
  owner : String
  repo : String
  prNumber : String
deriving DecidableEq, Repr

/-- Outcome of one `requests.get` call: raises `Timeout`, raises another
`RequestException`, or returns a response with an HTTP status, a raw text
body, and the value `response.json()` would produce (`none` when parsing the
body raises). -/
inductive HttpOutcome where
  | timeout
  | transportError (msg : String)
  | response (status : Nat) (text : String) (body : Option Json)

/-- Error message for a missing `GITHUB_TOKEN` (lines 64, 160, 254). -/
def tokenMissingMsg : String :=
  "GITHUB_TOKEN not available in environment. Please ensure GitHub token is configured in TAP setup."

/-- Error message for missing owner/repo context (lines 167, 261). -/
def repoContextMsg : String :=
  "Repository context not available. Owner and repo must be set. This tool requires PR context from test execution."

/-- Elements of a JSON array; iterating anything else raises (caught by the
catch-all). -/
def asArr (j : Json) : Except String (List Json) :=
  match j with
  | .arr es => .ok es
  | _ => .error "value is not iterable"

/-- Lines 115-127: the whitelisted per-run dictionary built from one raw
workflow-run object (`head_sha` truncated to 7 characters); a missing key or
a non-sliceable `head_sha` raises (taken by the trailing `except Exception`). -/
def simplifyRun (r : Json) : Except String Json :=
  match r.getField "id" with
  | none => .error "KeyError: id"
  | some idv =>
  match r.getField "name" with
  | none => .error "KeyError: name"
  | some namev =>
  match r.getField "status" with
  | none => .error "KeyError: status"
  | some statusv =>
  match r.getField "conclusion" with
  | none => .error "KeyError: conclusion"
  | some conclusionv =>
  match r.getField "created_at" with
  | none => .error "KeyError: created_at"
  | some createdv =>
  match r.getField "updated_at" with
  | none => .error "KeyError: updated_at"
  | some updatedv =>
  match r.getField "head_branch" with
  | none => .error "KeyError: head_branch"
  | some branchv =>
  match r.getField "head_sha" with
  | none => .error "KeyError: head_sha"
  | some shav =>
  match shav.getStr with
  | none => .error "head_sha is not sliceable"
  | some shaStr =>
  match r.getField "html_url" with
  | none => .error "KeyError: html_url"
  | some htmlv =>
    .ok (.obj [("id", idv), ("name", namev), ("status", statusv),
      ("conclusion", conclusionv), ("created_at", createdv), ("updated_at", updatedv),
      ("head_branch", branchv), ("head_sha", .str (shaStr.take 7)), ("html_url", htmlv)])

/-- The list comprehension over `workflow_runs` (lines 114-127): the first
raising element aborts the whole comprehension. -/
def simplifyRuns : List Json → Except String (List Json)
  | [] => .ok []
  | r :: rest =>
    match simplifyRun r with
    | .error e => .error e
    | .ok j =>
      match simplifyRuns rest with
      | .error e => .error e
      | .ok js => .ok (j :: js)

/-- Lines 91-92: `pr_data["head"]["ref"]` on the parsed PR response (any
failure raises and is taken by the trailing `except Exception`). -/
def extractBranch (body : Option Json) : Except String String :=
  match body with
  | none => .error "response body is not valid JSON"
  | some pr =>
  match pr.getField "head" with
  | none => .error "KeyError: head"
  | some head =>
  match head.getField "ref" with
  | none => .error "KeyError: ref"
  | some ref =>
  match ref.getStr with
  | none => .error "branch ref is not a string"
  | some b => .ok b

/-- Lines 104-129: the success dictionary of `list_github_workflows`, built
from the parsed workflow-runs response. -/
def buildWorkflowsResult (env : GhEnv) (branch : String) (body2 : Option Json) :
    Except String Json :=
  match body2 with
  | none => .error "response body is not valid JSON"
  | some dataj =>
  match asArr ((dataj.getField "workflow_runs").getD (.arr [])) with
  | .error e => .error e
  | .ok runsRaw =>
  match simplifyRuns runsRaw with
  | .error e => .error e
  | .ok runs =>
    .ok (.obj [("success", .bool true), ("pr_number", .str env.prNumber),
      ("pr_branch", .str branch),
      ("repository", .str (env.owner ++ "/" ++ env.repo)),
      ("count", .num runsRaw.length), ("workflow_runs", .arr runs)])

/-- `list_github_workflows` (lines 49-141).  `prOutcome` is the PR-info
request, `runsOutcome` the workflow-runs request; `limit` is only forwarded as
the `per_page` request parameter. -/
def list_github_workflows (env : GhEnv) (prOutcome runsOutcome : HttpOutcome)
    (limit : Nat) : Json :=
  if falsyStr env.token then errObj tokenMissingMsg
  else if env.owner == "" || env.repo == "" || env.prNumber == "" then
    errObj "PR context not available (owner, repo, or PR number missing). This tool requires PR context from test execution."
  else
    match prOutcome with
    | .timeout => errObj "Request timed out after 30 seconds. Please try again."
    | .transportError m => errObj ("Request failed: " ++ m)
    | .response status text body =>
      if status != 200 then
        errObj2 ("Failed to fetch PR info: HTTP " ++ toString status) (text.take 200)
      else
        match extractBranch body with
        | .error e => errObj ("Unexpected error: " ++ e)
        | .ok branch =>
          match runsOutcome with
          | .timeout => errObj "Request timed out after 30 seconds. Please try again."
          | .transportError m => errObj ("Request failed: " ++ m)
          | .response status2 text2 body2 =>
            if status2 == 200 then
              match buildWorkflowsResult env branch body2 with
              | .ok j => j
              | .error e => errObj ("Unexpected error: " ++ e)
            else
              errObj2 ("GitHub API error: HTTP " ++ toString status2) (text2.take 200)

/-- Lines 200-209: the whitelisted per-artifact dictionary (`size_in_bytes`
renamed to `size_bytes`). -/
def simplifyArtifact (a : Json) : Except String Json :=
  match a.getField "id" with
  | none => .error "KeyError: id"
  | some idv =>
  match a.getField "name" with
  | none => .error "KeyError: name"
  | some namev =>
  match a.getField "size_in_bytes" with
  | none => .error "KeyError: size_in_bytes"
  | some sizev =>
  match a.getField "expired" with
  | none => .error "KeyError: expired"
  | some expiredv =>
  match a.getField "created_at" with
  | none => .error "KeyError: created_at"
  | some createdv =>
    .ok (.obj [("id", idv), ("name", namev), ("size_bytes", sizev),
      ("expired", expiredv), ("created_at", createdv)])

/-- The list comprehension over `artifacts` (lines 200-209). -/
def simplifyArtifacts : List Json → Except String (List Json)
  | [] => .ok []
  | a :: rest =>
    match simplifyArtifact a with
    | .error e => .error e
    | .ok j =>
      match simplifyArtifacts rest with
      | .error e => .error e
      | .ok js => .ok (j :: js)

/-- A call of `list_github_artifacts`: the URL it requested (when a request
was made at all, line 180/188) and the dictionary it returned. -/
structure ArtifactsCall where
  requestUrl : Option String
  response : Json

/-- The request URL built at line 180 from the parsed run ID. -/
def artifactsUrl (owner repo run_id : String) : String :=
  "https://api.github.com/repos/" ++ owner ++ "/" ++ repo ++ "/actions/runs/" ++
    run_id ++ "/artifacts"

/-- Lines 190-211: the success dictionary of `list_github_artifacts`, built
from the parsed artifacts response. -/
def buildArtifactsResult (env : GhEnv) (run_id : String) (body : Option Json) :
    Except String Json :=
  match body with
  | none => .error "response body is not valid JSON"
  | some dataj =>
  match asArr ((dataj.getField "artifacts").getD (.arr [])) with
  | .error e => .error e
  | .ok raw =>
  match simplifyArtifacts raw with
  | .error e => .error e
  | .ok arts =>
    .ok (.obj [("success", .bool true), ("workflow_run_id", .str run_id),
      ("repository", .str (env.owner ++ "/" ++ env.repo)),
      ("count", .num raw.length), ("artifacts", .arr arts)])

/-- `list_github_artifacts` (lines 144-232). -/
def list_github_artifacts (env : GhEnv) (outcome : HttpOutcome)
    (workflow_run_id : String) : ArtifactsCall :=
  if falsyStr env.token then { requestUrl := none, response := errObj tokenMissingMsg }
  else if env.owner == "" || env.repo == "" then
    { requestUrl := none, response := errObj repoContextMsg }
  else
    match parseRunId workflow_run_id with
    | .error m => { requestUrl := none, response := errObj m }
    | .ok run_id =>
      let url := artifactsUrl env.owner env.repo run_id
      { requestUrl := some url,
        response :=
          match outcome with
          | .timeout => errObj "Request timed out after 30 seconds. Please try again."
          | .transportError m => errObj ("Request failed: " ++ m)
          | .response status text body =>
            if status == 200 then
              match buildArtifactsResult env run_id body with
              | .ok j => j
              | .error e => errObj ("Unexpected error: " ++ e)
            else if status == 404 then
              errObj2 ("Workflow run not found: " ++ run_id)
                ("Please verify the workflow run ID exists in " ++ env.owner ++ "/" ++ env.repo)
            else if status == 401 || status == 403 then
              errObj2 ("GitHub API authentication failed: HTTP " ++ toString status)
                "Please verify your GitHub token has 'repo' scope permissions"
            else
              errObj2 ("GitHub API error: HTTP " ++ toString status) (text.take 200) }

/-- Line 263: `destination_filename or f"artifact-{artifact_id}.zip"` —
Python's `or` falls back on any falsy value, so an *empty* custom filename is
replaced by the default as well. -/
def downloadFilename (artifact_id : String) (destination_filename : Option String) : String :=
  match destination_filename with
  | some f => if f == "" then "artifact-" ++ artifact_id ++ ".zip" else f
  | none => "artifact-" ++ artifact_id ++ ".zip"

/-- Line 282: the write target inside the container, a plain concatenation
with no sanitization of the filename. -/
def containerPath (artifact_id : String) (destination_filename : Option String) : String :=
  "/tmp/" ++ downloadFilename artifact_id destination_filename

/-- Split a character list on a separator character. -/
def splitOnCharAux (sep : Char) : List Char → List Char → List String
  | [], acc => [String.mk acc.reverse]
  | c :: cs, acc =>
      if c == sep then String.mk acc.reverse :: splitOnCharAux sep cs []
      else splitOnCharAux sep cs (c :: acc)

/-- Split a string on a separator character (`s.split(sep)`). -/
def splitOnChar (sep : Char) (s : String) : List String := splitOnCharAux sep s.data []

/-- POSIX-style resolution of a path into components, collapsing `.`, empty
components and `..` (used to state where a write target actually lands). -/
def normalizePath (s : String) : List String :=
  (splitOnChar '/' s).foldl
    (fun acc comp =>
      if comp == "" || comp == "." then acc
      else if comp == ".." then acc.dropLast
      else acc ++ [comp]) []

/-- `download_github_artifact` (lines 238-329, created per-run by
`create_download_artifact_tool`).  `outcome` is the artifact download request;
`writeResult` the outcome of `computer.interface.write_bytes` (line 286); the
response body text stands in for the downloaded bytes, so `text.length` is
`len(file_content)`. -/
def download_github_artifact (env : GhEnv) (outcome : HttpOutcome)
    (writeResult : Except String Unit) (artifact_id : String)
    (destination_filename : Option String) : Json :=
  if falsyStr env.token then errObj tokenMissingMsg
  else if env.owner == "" || env.repo == "" then errObj repoContextMsg
  else
    let filename := downloadFilename artifact_id destination_filename
    match outcome with
    | .timeout =>
        errObj "Download timed out after 120 seconds. Please try again or check your network connection."
    | .transportError m => errObj ("Download failed: " ++ m)
    | .response status text _ =>
      if status == 200 then
        let container_path := containerPath artifact_id destination_filename
        match writeResult with
        | .ok _ =>
            .obj [("success", .bool true), ("artifact_id", .str artifact_id),
              ("repository", .str (env.owner ++ "/" ++ env.repo)),
              ("container_path", .str container_path), ("filename", .str filename),
              ("size_bytes", .num text.length),
              ("message", .str "Artifact downloaded and uploaded to container."),
              ("instructions", .str ("The file is now available at: " ++ container_path ++
                "\nUse terminal commands to extract and work with it. For example:\n  cd /tmp && unzip " ++
                filename))]
        | .error w =>
            errObj2 ("Failed to write file to container: " ++ w)
              "File was downloaded but could not be written to container filesystem."
      else if status == 404 then
        errObj2 ("Artifact not found: " ++ artifact_id)
          ("Please verify the artifact ID exists in " ++ env.owner ++ "/" ++ env.repo)
      else if status == 401 || status == 403 then
        errObj2 ("GitHub API authentication failed: HTTP " ++ toString status)
          "Please verify your GitHub token has 'repo' scope permissions"
      else if status == 410 then
        errObj2 ("Artifact has expired: " ++ artifact_id)
          "GitHub Actions artifacts expire after 90 days by default"
      else
        errObj2 ("GitHub API error: HTTP " ++ toString status) (text.take 200)

/-! ## Response-shape predicates (for the error-handling claims) -/

/-- A structured error dictionary: exactly the keys `error` or
`error, message`, in order. -/
def errShape (j : Json) : Bool :=
  match j with
  | .obj [("error", _)] => true
  | .obj [("error", _), ("message", _)] => true
  | _ => false

/-- Whitelisted shape of one simplified workflow-run entry. -/
def runEntryShape (j : Json) : Bool :=
  match j with
  | .obj [("id", _), ("name", _), ("status", _), ("conclusion", _), ("created_at", _),
      ("updated_at", _), ("head_branch", _), ("head_sha", _), ("html_url", _)] => true
  | _ => false

/-- Whitelisted success shape of `list_github_workflows`. -/
def workflowsOkShape (j : Json) : Bool :=
  match j with
  | .obj [("success", _), ("pr_number", _), ("pr_branch", _), ("repository", _),
      ("count", _), ("workflow_runs", .arr es)] => es.all runEntryShape
  | _ => false

/-- Whitelisted shape of one simplified artifact entry. -/
def artifactEntryShape (j : Json) : Bool :=
  match j with
  | .obj [("id", _), ("name", _), ("size_bytes", _), ("expired", _), ("created_at", _)] => true
  | _ => false

/-- Whitelisted success shape of `list_github_artifacts`. -/
def artifactsOkShape (j : Json) : Bool :=
  match j with
  | .obj [("success", _), ("workflow_run_id", _), ("repository", _), ("count", _),
      ("artifacts", .arr es)] => es.all artifactEntryShape
  | _ => false

/-- Whitelisted success shape of `download_github_artifact`. -/
def downloadOkShape (j : Json) : Bool :=
  match j with
  | .obj [("success", _), ("artifact_id", _), ("repository", _), ("container_path", _),
      ("filename", _), ("size_bytes", _), ("message", _), ("instructions", _)] => true
  | _ => false

/-- Failure outcomes of one HTTP call: raised `Timeout`, raised transport
error, or a non-success HTTP status. -/
def isFailureOutcome : HttpOutcome → Bool
  | .timeout => true
  | .transportError _ => true
  | .response status _ _ => status != 200

/-! ## Observation helpers and spec-worded reference definitions

The `spec...` definitions below follow the wording of the specification /
claims (not the code) and are compared against the code model in the
refinement-style theorems. -/

/-- Is the event the invocation of `computer.stop()`? -/
def isStopEvent : Event → Bool
  | .stopContainer => true
  | _ => false

/-- Is the event the run of the artifact organizer? -/
def isOrganizeEvent : Event → Bool
  | .organizeCall _ => true
  | _ => false

/-- How many times `computer.stop()` was invoked during a run. -/
def stopCount (evs : List Event) : Nat := (evs.filter isStopEvent).length

/-- The claim's temporal predicate (claim C6 wording): the organizer ran, and
only after the container-stop operation had already been invoked. -/
def organizeAfterStop (evs : List Event) : Bool :=
  match evs.findIdx? isOrganizeEvent, evs.findIdx? isStopEvent with
  | some oi, some si => decide (si < oi)
  | _, _ => false

/-- Spec wording: every text content block of every message item yielded by
the agent, in arrival order. -/
def specAllTexts (chunks : List AgentChunk) : List String := chunks.flatMap chunkTexts

/-- Spec wording: the text segments received no later than the deadline. -/
def specTextsBeforeDeadline (timeout_seconds : Nat) (chunks : List AgentChunk) :
    List String :=
  (chunks.filter (fun c => c.arrival ≤ timeout_seconds)).flatMap chunkTexts

/-- Spec wording (claim C1): the agent's streaming loop does not complete
within the deadline — it finishes only after the deadline or is still running
when the deadline fires.  (A loop that dies of a non-timeout exception is the
spec's separate `error` outcome, not a timeout.) -/
def specNotDoneByDeadline (timeout_seconds : Nat) : AgentBehavior → Prop
  | .completes _ doneTime => timeout_seconds < doneTime
  | .runsPast _ _ => True
  | .raisesAt _ _ _ => False

/-- Spec wording (claim C5): the `.png` files of the trace directory. -/
def specPngs (files : List String) : List String :=
  files.filter (fun f => strEndsWith f ".png")

/-- Spec wording (claim C5): the `.mp4`/`.webm` files of the trace directory. -/
def specVideos (files : List String) : List String :=
  files.filter (fun f => strEndsWith f ".mp4" || strEndsWith f ".webm")

/-- Spec wording (claim C5): the `.json` files of the trace directory. -/
def specJsons (files : List String) : List String :=
  files.filter (fun f => strEndsWith f ".json")

/-- Spec wording (claim C5): the files of unrelated type. -/
def specOthers (files : List String) : List String :=
  files.filter (fun f =>
    !(strEndsWith f ".png" || strEndsWith f ".mp4" || strEndsWith f ".webm" ||
      strEndsWith f ".json"))

/-- Spec wording (claim C7, amended): the returned dictionary has one of the
three statuses; on the success and timeout paths it carries an output string
and a boolean `timed_out`, while the error-path dictionary has `output = None`
and no `timed_out` key at all. -/
def resultShape (r : ExecResult) : Bool :=
  (r.status == "success" || r.status == "warning" || r.status == "error")
  && (if r.status == "error" then r.timed_out == none && r.output == none
      else r.timed_out.isSome && r.output.isSome)

/-- The events of a run before the `finally` block takes over (container
construction, `computer.run()`, `tracing.start`): each is recorded when it is
invoked, and a failing step prevents the later ones from being reached. -/
def executePrefix (env : Env) : List Event :=
  match env.startFail with
  | some _ => [Event.createContainer, Event.startContainer]
  | none => [Event.createContainer, Event.startContainer, Event.startTrace]

/-- A chunk carrying one text segment plus non-message noise, for witnesses. -/
def chunkW : AgentChunk :=
  { arrival := 1,
    output := [{ type := "message",
                 content := [{ type := "text", text := "hello" },
                             { type := "thinking", text := "skip me" }] },
               { type := "computer_call", content := [] }] }

/-- A second witness chunk with one text segment. -/
def chunkW2 : AgentChunk :=
  { arrival := 2,
    output := [{ type := "message", content := [{ type := "text", text := "world" }] }] }

/-- A run whose agent loop is still running at the deadline (witness input). -/
def envStall : Env :=
  { createFail := none, startFail := none, traceStartFail := none,
    agent := .runsPast [chunkW, chunkW2] 9,
    traceStop := .dir ["a.png"], moveFails := [], stopFail := none }

/-- A run whose agent loop completes in time (witness input). -/
def envDone : Env :=
  { createFail := none, startFail := none, traceStartFail := none,
    agent := .completes [chunkW, chunkW2] 3,
    traceStop := .noDir, moveFails := [], stopFail := none }

/-- A run in which the container constructor itself raises (counterexample
input: the returned dictionary is the error-path one). -/
def envErr : Env :=
  { createFail := some "boom", startFail := none, traceStartFail := none,
    agent := .completes [] 0, traceStop := .noDir, moveFails := [], stopFail := none }

/-- A clean run that produces a trace directory with one screenshot
(counterexample input for the ordering claim). -/
def envTraced : Env :=
  { createFail := none, startFail := none, traceStartFail := none,
    agent := .completes [] 0, traceStop := .dir ["a.png"],
    moveFails := [], stopFail := none }

/-- A run in which every cleanup step fails (witness input for the
cleanup-invariance claim). -/
def envBadCleanup : Env :=
  { createFail := none, startFail := none, traceStartFail := none,
    agent := .raisesAt [] 1 "kaput",
    traceStop := .fails "trace dead", moveFails := ["a.png"], stopFail := some "stop dead" }

/-- A process environment with the API credential unset (witness input). -/
def menvKeyless : MainEnv :=
  { anthropic_api_key := none, stdin := "do things", timeout_seconds := 60,
    scenario := envDone }

/-- A process environment whose standard input is whitespace only (witness
input). -/
def menvBlank : MainEnv :=
  { anthropic_api_key := some "sk-key", stdin := " \n\t ", timeout_seconds := 60,
    scenario := envDone }

/-- A GitHub environment with the token present and PR context set (witness
input). -/
def ghEnvOk : GhEnv := { token := some "ghp", owner := "o", repo := "r", prNumber := "7" }

/-- A GitHub environment with no token (witness input). -/
def ghEnvNoToken : GhEnv := { token := none, owner := "o", repo := "r", prNumber := "7" }

/-- Scan positions strictly before a suffix `tail` of a string `p ++ tail`:
`true` when no position inside `p` begins a match of the run-ID pattern (so
the regex search reaches `tail`). -/
def cleanBefore (tail : List Char) : List Char → Bool
  | [] => true
  | c :: ps =>
      !(matchesAt runsLit (c :: ps ++ tail)
        && isDigitHead (List.drop runsLit.length (c :: ps ++ tail)))
      && cleanBefore tail ps

/-! ## Helper lemmas -/

lemma collectTexts_of_forall_le (t : Nat) (chunks : List AgentChunk)
    (h : ∀ c ∈ chunks, c.arrival ≤ t) : collectTexts t chunks = specAllTexts chunks := by
  induction chunks with
  | nil => rfl
  | cons c rest ih =>
      have hc : ¬ t < c.arrival := not_lt.mpr (h c (List.mem_cons_self _ _))
      simp only [collectTexts, specAllTexts, List.flatMap_cons, if_neg hc]
      rw [ih (fun x hx => h x (List.mem_cons_of_mem _ hx))]
      rfl

lemma collectTexts_sorted (t : Nat) (chunks : List AgentChunk)
    (h : chunks.Pairwise (fun a b => a.arrival ≤ b.arrival)) :
    collectTexts t chunks = specTextsBeforeDeadline t chunks := by
  induction chunks with
  | nil => rfl
  | cons c rest ih =>
      rcases List.pairwise_cons.mp h with ⟨hhead, htail⟩
      by_cases hlt : t < c.arrival
      · have hrest : rest.filter (fun x => decide (x.arrival ≤ t)) = [] := by
          refine List.filter_eq_nil_iff.mpr (fun x hx => ?_)
          simp only [decide_eq_true_eq]
          exact not_le.mpr (lt_of_lt_of_le hlt (hhead x hx))
        simp only [collectTexts, if_pos hlt, specTextsBeforeDeadline, List.filter_cons,
          decide_eq_true_eq]
        rw [if_neg (by exact not_le.mpr hlt)]
        rw [hrest]
        rfl
      · have hle : c.arrival ≤ t := not_lt.mp hlt
        simp only [collectTexts, if_neg hlt, specTextsBeforeDeadline, List.filter_cons]
        rw [if_pos (by simpa using hle)]
        simp only [List.flatMap_cons]
        rw [ih htail]
        rfl

lemma stopCount_append (a b : List Event) : stopCount (a ++ b) = stopCount a + stopCount b := by
  simp [stopCount, List.filter_append]

lemma filter_isStop_warnMap (ls : List String) (g : String → String) :
    (ls.map (fun f => Event.warnLog (g f))).filter isStopEvent = [] := by
  induction ls with
  | nil => rfl
  | cons x xs ih => simp [isStopEvent, ih]

lemma stopCount_cleanup (env : Env) (h : env.createFail = none) :
    stopCount (cleanup env) = 1 := by
  unfold cleanup
  rw [h]
  cases env.traceStop <;> cases env.stopFail <;>
    simp [stopCount, List.filter_append, isStopEvent, filter_isStop_warnMap]

lemma execute_scenario_run (env : Env) (i : String) (t : Nat)
    (hc : env.createFail = none) (hs : env.startFail = none) (ht : env.traceStartFail = none) :
    execute_scenario env i t =
      { result := (agentPhase t env.agent).1,
        events := [Event.createContainer, Event.startContainer, Event.startTrace]
          ++ cleanup env,
        finishTime := (agentPhase t env.agent).2 } := by
  simp [execute_scenario, hc, hs, ht]

lemma execute_scenario_events_split (env : Env) (i : String) (t : Nat)
    (hc : env.createFail = none) :
    (execute_scenario env i t).events = executePrefix env ++ cleanup env := by
  unfold execute_scenario executePrefix
  rw [hc]
  cases env.startFail <;> cases env.traceStartFail <;> rfl

lemma result_ignores_cleanup (env : Env) (i : String) (t : Nat)
    (ts : TraceStopOutcome) (mf : List String) (sf : Option String) :
    (execute_scenario { env with traceStop := ts, moveFails := mf, stopFail := sf } i t).result
      = (execute_scenario env i t).result := by
  unfold execute_scenario
  cases env.createFail <;> cases env.startFail <;> cases env.traceStartFail <;> rfl

lemma stopCount_run (env : Env) (i : String) (t : Nat) (hc : env.createFail = none) :
    stopCount (execute_scenario env i t).events = 1 := by
  rw [execute_scenario_events_split env i t hc, stopCount_append, stopCount_cleanup env hc]
  unfold executePrefix
  cases env.startFail <;> rfl

lemma cleanup_dir (env : Env) (files : List String) (hc : env.createFail = none)
    (ht : env.traceStop = .dir files) :
    cleanup env = Event.stopTraceCall :: Event.organizeCall files
      :: ((organizeTrace files env.moveFails).failed.map
            (fun f => Event.warnLog ("Failed to move " ++ f))
          ++ Event.stopContainer
          :: (match env.stopFail with
              | some m => [Event.warnLog ("Warning: Failed to stop container: " ++ m)]
              | none => [])) := by
  unfold cleanup
  rw [hc, ht]
  simp

lemma matchesAt_head_eq {a b : Char} {as bs l : List Char}
    (ha : matchesAt (a :: as) l = true) (hb : matchesAt (b :: bs) l = true) : a = b := by
  cases l with
  | nil => simp [matchesAt] at ha
  | cons c cs =>
      simp only [matchesAt, Bool.and_eq_true, beq_iff_eq] at ha hb
      exact ha.1.trans hb.1.symm

lemma strEndsWith_mp4_not_webm {f : String} (h : strEndsWith f ".mp4" = true) :
    strEndsWith f ".webm" = false := by
  by_contra hw
  rw [Bool.not_eq_false] at hw
  unfold strEndsWith at h hw
  have h4 : ".mp4".data.reverse = ['4', 'p', 'm', '.'] := by decide
  have hm : ".webm".data.reverse = ['m', 'b', 'e', 'w', '.'] := by decide
  rw [h4] at h
  rw [hm] at hw
  exact absurd (matchesAt_head_eq h hw) (by decide)

lemma filter_or_perm {α : Type} (p q : α → Bool) (l : List α)
    (hdisj : ∀ a ∈ l, p a = true → q a = false) :
    List.Perm (l.filter p ++ l.filter q) (l.filter (fun a => p a || q a)) := by
  induction l with
  | nil => simp
  | cons a rest ih =>
      have ih' := ih (fun x hx h => hdisj x (List.mem_cons_of_mem _ hx) h)
      cases hpa : p a with
      | true =>
          have hqa : q a = false := hdisj a (List.mem_cons_self _ _) hpa
          simp only [List.filter_cons, hpa, hqa, Bool.true_or, if_true, if_false,
            List.cons_append]
          exact List.Perm.cons a ih'
      | false =>
          cases hqa : q a with
          | true =>
              simp only [List.filter_cons, hpa, hqa, Bool.false_or, if_true, if_false]
              exact List.Perm.trans List.perm_middle (List.Perm.cons a ih')
          | false =>
              simp only [List.filter_cons, hpa, hqa, Bool.false_or, if_false]
              exact ih'

lemma globMatch_eq_endsWith {f : String} (h : strStartsWith f "." = false)
    (ext : String) : globMatch ext f = strEndsWith f ext := by
  unfold globMatch
  rw [h]
  rfl

lemma filter_moved_nil {α : Type} [BEq α] (l : List α) :
    l.filter (fun f => !(List.contains [] f)) = l := by
  induction l with
  | nil => rfl
  | cons a rest ih => simp [List.contains, List.elem, ih]

lemma matchesAt_append_self (pat rest : List Char) : matchesAt pat (pat ++ rest) = true := by
  induction pat with
  | nil => rfl
  | cons c cs ih => simp [matchesAt, ih]

lemma takeWhile_digits {d : List Char} (h : ∀ c ∈ d, c.isDigit = true) :
    d.takeWhile Char.isDigit = d := by
  induction d with
  | nil => rfl
  | cons c cs ih =>
      simp [List.takeWhile_cons, h c (List.mem_cons_self _ _),
        ih (fun x hx => h x (List.mem_cons_of_mem _ hx))]

lemma findRunsMatch_skip (tail : List Char) :
    ∀ p : List Char, cleanBefore tail p = true →
      findRunsMatch (p ++ tail) = findRunsMatch tail := by
  intro p
  induction p with
  | nil => intro _; rfl
  | cons c ps ih =>
      intro hclean
      unfold cleanBefore at hclean
      rw [Bool.and_eq_true] at hclean
      have hcond : (matchesAt runsLit (c :: ps ++ tail)
          && isDigitHead (List.drop runsLit.length (c :: ps ++ tail))) = false := by
        have h1 := hclean.1
        rwa [Bool.not_eq_true'] at h1
      show findRunsMatch (c :: (ps ++ tail)) = findRunsMatch tail
      simp only [findRunsMatch]
      rw [List.cons_append] at hcond
      rw [hcond]
      simp only [Bool.false_eq_true, if_false]
      exact ih hclean.2

lemma findRunsMatch_at_lit (d : List Char) (hne : d ≠ [])
    (hdig : ∀ c ∈ d, c.isDigit = true) :
    findRunsMatch (runsLit ++ d) = some d := by
  have hd : List.drop runsLit.length (runsLit ++ d) = d := List.drop_left runsLit d
  have hdd : isDigitHead d = true := by
    cases d with
    | nil => exact absurd rfl hne
    | cons c cs => exact hdig c (List.mem_cons_self _ _)
  have hm2 : matchesAt runsLit ('/' :: (runsLit.tail ++ d)) = true :=
    matchesAt_append_self runsLit d
  have hd2 : List.drop runsLit.length ('/' :: (runsLit.tail ++ d)) = d := hd
  rw [show runsLit ++ d = '/' :: (runsLit.tail ++ d) from rfl]
  simp only [findRunsMatch]
  rw [hm2, hd2, hdd]
  simp [takeWhile_digits hdig]

lemma simplifyRun_shape (r j : Json) :
    simplifyRun r = .ok j → runEntryShape j = true := by
  unfold simplifyRun
  repeat' split
  all_goals intro h
  all_goals cases h
  all_goals rfl

lemma simplifyRuns_shape : ∀ l js : List Json, simplifyRuns l = .ok js →
    js.all runEntryShape = true := by
  intro l
  induction l with
  | nil => intro js h; cases h; rfl
  | cons r rest ih =>
      intro js h
      unfold simplifyRuns at h
      split at h
      · cases h
      · rename_i j hj
        split at h
        · cases h
        · rename_i js' hjs
          cases h
          simp [List.all_cons, simplifyRun_shape r j hj, ih js' hjs]

lemma buildWorkflowsResult_shape (env : GhEnv) (branch : String) (body : Option Json)
    (j : Json) (h : buildWorkflowsResult env branch body = .ok j) :
    workflowsOkShape j = true := by
  unfold buildWorkflowsResult at h
  split at h
  · cases h
  · split at h
    · cases h
    · rename_i runsRaw hraw
      split at h
      · cases h
      · rename_i runs hruns
        cases h
        exact simplifyRuns_shape runsRaw runs hruns

lemma simplifyArtifact_shape (a j : Json) :
    simplifyArtifact a = .ok j → artifactEntryShape j = true := by
  unfold simplifyArtifact
  repeat' split
  all_goals intro h
  all_goals cases h
  all_goals rfl

lemma simplifyArtifacts_shape : ∀ l js : List Json, simplifyArtifacts l = .ok js →
    js.all artifactEntryShape = true := by
  intro l
  induction l with
  | nil => intro js h; cases h; rfl
  | cons a rest ih =>
      intro js h
      unfold simplifyArtifacts at h
      split at h
      · cases h
      · rename_i j hj
        split at h
        · cases h
        · rename_i js' hjs
          cases h
          simp [List.all_cons, simplifyArtifact_shape a j hj, ih js' hjs]

lemma buildArtifactsResult_shape (env : GhEnv) (run_id : String) (body : Option Json)
    (j : Json) (h : buildArtifactsResult env run_id body = .ok j) :
    artifactsOkShape j = true := by
  unfold buildArtifactsResult at h
  split at h
  · cases h
  · split at h
    · cases h
    · rename_i raw hraw
      split at h
      · cases h
      · rename_i arts harts
        cases h
        exact simplifyArtifacts_shape raw arts harts

lemma workflows_shape (env : GhEnv) (p r : HttpOutcome) (limit : Nat) :
    errShape (list_github_workflows env p r limit) = true
    ∨ workflowsOkShape (list_github_workflows env p r limit) = true := by
  unfold list_github_workflows
  split
  · exact Or.inl rfl
  split
  · exact Or.inl rfl
  split
  · exact Or.inl rfl
  · exact Or.inl rfl
  · split
    · exact Or.inl rfl
    · split
      · exact Or.inl rfl
      · rename_i branch hbranch
        split
        · exact Or.inl rfl
        · exact Or.inl rfl
        · rename_i status2 text2 body2
          split
          · split
            · rename_i j hj
              exact Or.inr (buildWorkflowsResult_shape env branch body2 j hj)
            · exact Or.inl rfl
          · exact Or.inl rfl

lemma artifacts_shape (env : GhEnv) (o : HttpOutcome) (wfid : String) :
    errShape (list_github_artifacts env o wfid).response = true
    ∨ artifactsOkShape (list_github_artifacts env o wfid).response = true := by
  unfold list_github_artifacts
  split
  · exact Or.inl rfl
  split
  · exact Or.inl rfl
  split
  · exact Or.inl rfl
  · rename_i run_id hparse
    dsimp only
    split
    · exact Or.inl rfl
    · exact Or.inl rfl
    · rename_i status text body
      split
      · split
        · rename_i j hj
          exact Or.inr (buildArtifactsResult_shape env run_id body j hj)
        · exact Or.inl rfl
      · split
        · exact Or.inl rfl
        · split
          · exact Or.inl rfl
          · exact Or.inl rfl

lemma download_shape (env : GhEnv) (o : HttpOutcome) (w : Except String Unit)
    (artifact_id : String) (destination_filename : Option String) :
    errShape (download_github_artifact env o w artifact_id destination_filename) = true
    ∨ downloadOkShape (download_github_artifact env o w artifact_id destination_filename)
        = true := by
  unfold download_github_artifact
  split
  · exact Or.inl rfl
  split
  · exact Or.inl rfl
  split
  · exact Or.inl rfl
  · exact Or.inl rfl
  · split
    · split
      · exact Or.inr rfl
      · exact Or.inl rfl
    · split
      · exact Or.inl rfl
      · split
        · exact Or.inl rfl
        · split
          · exact Or.inl rfl
          · exact Or.inl rfl

lemma workflows_err (env : GhEnv) (p r : HttpOutcome) (limit : Nat)
    (h : falsyStr env.token = true ∨ env.owner = "" ∨ env.repo = "" ∨ env.prNumber = ""
      ∨ isFailureOutcome p = true ∨ isFailureOutcome r = true) :
    errShape (list_github_workflows env p r limit) = true := by
  unfold list_github_workflows
  split
  · rfl
  rename_i htok
  split
  · rfl
  rename_i hctx
  split
  · rfl
  · rfl
  · rename_i status text body
    split
    · rfl
    rename_i hstat
    split
    · rfl
    · rename_i branch hbranch
      split
      · rfl
      · rfl
      · rename_i status2 text2 body2
        split
        · rename_i hstat2
          split
          · rename_i j hj
            exfalso
            rcases h with h | h | h | h | h | h
            · exact htok h
            · exact hctx (by simp [h])
            · exact hctx (by simp [h])
            · exact hctx (by simp [h])
            · exact hstat h
            · exact absurd (eq_of_beq hstat2) (bne_iff_ne.mp h)
          · rfl
        · rfl

lemma artifacts_err (env : GhEnv) (o : HttpOutcome) (wfid : String)
    (h : falsyStr env.token = true ∨ env.owner = "" ∨ env.repo = ""
      ∨ isFailureOutcome o = true) :
    errShape (list_github_artifacts env o wfid).response = true := by
  unfold list_github_artifacts
  split
  · rfl
  rename_i htok
  split
  · rfl
  rename_i hctx
  split
  · rfl
  · rename_i run_id hparse
    dsimp only
    split
    · rfl
    · rfl
    · rename_i status text body
      split
      · rename_i hstat
        split
        · rename_i j hj
          exfalso
          rcases h with h | h | h | h
          · exact htok h
          · exact hctx (by simp [h])
          · exact hctx (by simp [h])
          · exact absurd (eq_of_beq hstat) (bne_iff_ne.mp h)
        · rfl
      · split
        · rfl
        · split
          · rfl
          · rfl

lemma download_err (env : GhEnv) (o : HttpOutcome) (w : Except String Unit)
    (artifact_id : String) (destination_filename : Option String)
    (h : falsyStr env.token = true ∨ env.owner = "" ∨ env.repo = ""
      ∨ isFailureOutcome o = true) :
    errShape (download_github_artifact env o w artifact_id destination_filename)
      = true := by
  unfold download_github_artifact
  split
  · rfl
  rename_i htok
  split
  · rfl
  rename_i hctx
  split
  · rfl
  · rfl
  · rename_i status text body
    split
    · rename_i hstat
      split
      · exfalso
        rcases h with h | h | h | h
        · exact htok h
        · exact hctx (by simp [h])
        · exact hctx (by simp [h])
        · exact absurd (eq_of_beq hstat) (bne_iff_ne.mp h)
      · rfl
    · split
      · rfl
      · split
        · rfl
        · split
          · rfl
          · rfl

lemma download_write_err (env : GhEnv) (o : HttpOutcome) (m : String)
    (artifact_id : String) (destination_filename : Option String) :
    errShape (download_github_artifact env o (.error m) artifact_id destination_filename)
      = true := by
  unfold download_github_artifact
  split
  · rfl
  split
  · rfl
  split
  · rfl
  · rfl
  · split
    · rfl
    · split
      · rfl
      · split
        · rfl
        · split
          · rfl
          · rfl

/-! ## Claims -/

/-- C1: on every run that reaches the agent loop and whose streaming loop
does not complete within `timeout_seconds` (it is still running at the
deadline, or finishes only later; chunk arrivals are monotone),
`execute_scenario` finishes the raced phase no later than
`timeout_seconds + graceSeconds` (the code's 5-second cancellation grace,
with the mocked cleanup calls instantaneous), returns status `warning` with
`timed_out` true and the timeout error message, preserves as output the
newline-joined text segments received by the deadline, invokes the sandbox's
stop operation exactly once, and the process exit code is 0. -/
theorem C1_timeout_behavior (env : Env) (instructions : String) (timeout_seconds : Nat)
    (hc : env.createFail = none) (hs : env.startFail = none)
    (ht : env.traceStartFail = none)
    (hagent : specNotDoneByDeadline timeout_seconds env.agent)
    (hsorted : env.agent.chunks.Pairwise (fun a b => a.arrival ≤ b.arrival)) :
    (execute_scenario env instructions timeout_seconds).finishTime
        ≤ timeout_seconds + graceSeconds
    ∧ (execute_scenario env instructions timeout_seconds).result.status = "warning"
    ∧ (execute_scenario env instructions timeout_seconds).result.timed_out = some true
    ∧ (execute_scenario env instructions timeout_seconds).result.error
        = some (timeoutMessage timeout_seconds)
    ∧ (execute_scenario env instructions timeout_seconds).result.output
        = some (String.intercalate "\n"
            (specTextsBeforeDeadline timeout_seconds env.agent.chunks))
    ∧ stopCount (execute_scenario env instructions timeout_seconds).events = 1
    ∧ exitCode (execute_scenario env instructions timeout_seconds).result = 0 := by
  have hrun := execute_scenario_run env instructions timeout_seconds hc hs ht
  rw [hrun]
  dsimp only
  revert hagent hsorted
  cases env.agent with
  | completes chunks doneTime =>
      intro hagent hsorted
      have hlt : timeout_seconds < doneTime := hagent
      simp only [AgentBehavior.chunks] at hsorted ⊢
      simp only [agentPhase]
      rw [if_neg (not_le.mpr hlt)]
      refine ⟨Nat.add_le_add_left (Nat.min_le_right _ _) _, rfl, rfl, rfl, ?_, ?_, rfl⟩
      · show some (String.intercalate "\n" (collectTexts timeout_seconds chunks)) = _
        rw [collectTexts_sorted timeout_seconds chunks hsorted]
      · rw [stopCount_append, stopCount_cleanup env hc]
        rfl
  | runsPast chunks cancelAck =>
      intro hagent hsorted
      simp only [AgentBehavior.chunks] at hsorted ⊢
      simp only [agentPhase]
      refine ⟨Nat.add_le_add_left (Nat.min_le_right _ _) _, rfl, rfl, rfl, ?_, ?_, rfl⟩
      · show some (String.intercalate "\n" (collectTexts timeout_seconds chunks)) = _
        rw [collectTexts_sorted timeout_seconds chunks hsorted]
      · rw [stopCount_append, stopCount_cleanup env hc]
        rfl
  | raisesAt chunks failTime msg =>
      intro hagent hsorted
      exact hagent.elim

/-- Witness for C1 on a concrete run whose agent loop is still running at a
3-second deadline. -/
theorem C1_witness :
    specNotDoneByDeadline 3 envStall.agent
    ∧ ((execute_scenario envStall "task" 3).finishTime ≤ 3 + graceSeconds
      ∧ (execute_scenario envStall "task" 3).result.status = "warning"
      ∧ (execute_scenario envStall "task" 3).result.timed_out = some true
      ∧ (execute_scenario envStall "task" 3).result.error = some (timeoutMessage 3)
      ∧ (execute_scenario envStall "task" 3).result.output
          = some (String.intercalate "\n" (specTextsBeforeDeadline 3 envStall.agent.chunks))
      ∧ stopCount (execute_scenario envStall "task" 3).events = 1
      ∧ exitCode (execute_scenario envStall "task" 3).result = 0) :=
  ⟨trivial, C1_timeout_behavior envStall "task" 3 rfl rfl rfl trivial (by decide)⟩

/-- C2: on every run that reaches the agent loop with a loop that completes
within the deadline (all chunks arriving before it finishes),
`execute_scenario` returns status `success` with no error and `timed_out`
false; its output is the newline-joined concatenation, in arrival order, of
every `text` content block of every `message` item the agent yielded, and the
sandbox's stop operation is invoked exactly once. -/
theorem C2_success_behavior (env : Env) (instructions : String) (timeout_seconds : Nat)
    (chunks : List AgentChunk) (doneTime : Nat)
    (hc : env.createFail = none) (hs : env.startFail = none)
    (ht : env.traceStartFail = none)
    (hagent : env.agent = .completes chunks doneTime)
    (hdone : doneTime ≤ timeout_seconds)
    (harr : ∀ c ∈ chunks, c.arrival ≤ doneTime) :
    (execute_scenario env instructions timeout_seconds).result.status = "success"
    ∧ (execute_scenario env instructions timeout_seconds).result.error = none
    ∧ (execute_scenario env instructions timeout_seconds).result.timed_out = some false
    ∧ (execute_scenario env instructions timeout_seconds).result.output
        = some (String.intercalate "\n" (specAllTexts chunks))
    ∧ stopCount (execute_scenario env instructions timeout_seconds).events = 1 := by
  have hrun := execute_scenario_run env instructions timeout_seconds hc hs ht
  rw [hrun]
  dsimp only
  rw [hagent]
  simp only [agentPhase]
  rw [if_pos hdone]
  refine ⟨rfl, rfl, rfl, ?_, ?_⟩
  · show some (String.intercalate "\n" (collectTexts timeout_seconds chunks)) = _
    rw [collectTexts_of_forall_le timeout_seconds chunks
      (fun c hcm => le_trans (harr c hcm) hdone)]
  · rw [stopCount_append, stopCount_cleanup env hc]
    rfl

/-- Witness for C2 on a concrete run whose agent loop finishes after 3 of 60
seconds, yielding the texts `hello` and `world`. -/
theorem C2_witness :
    envDone.agent = .completes [chunkW, chunkW2] 3
    ∧ ((execute_scenario envDone "task" 60).result.status = "success"
      ∧ (execute_scenario envDone "task" 60).result.error = none
      ∧ (execute_scenario envDone "task" 60).result.timed_out = some false
      ∧ (execute_scenario envDone "task" 60).result.output
          = some (String.intercalate "\n" (specAllTexts [chunkW, chunkW2]))
      ∧ stopCount (execute_scenario envDone "task" 60).events = 1) :=
  ⟨rfl, C2_success_behavior envDone "task" 60 [chunkW, chunkW2] 3 rfl rfl rfl rfl
    (by decide) (by decide)⟩

/-- C3: on every run in which the container instance was created — however
the raced phase ends — the container's stop operation is invoked exactly
once; a failing trace stop, a failing file move, and a failing container stop
are each logged as warnings; and no cleanup outcome (trace-stop result, move
failures, stop failure) changes the returned result or the process exit code
(cleanup exceptions are swallowed, never propagated). -/
theorem C3_cleanup_invariants (env : Env) (instructions : String) (timeout_seconds : Nat)
    (hc : env.createFail = none) :
    stopCount (execute_scenario env instructions timeout_seconds).events = 1
    ∧ (∀ m, env.traceStop = .fails m →
        Event.warnLog ("Failed to stop trace: " ++ m)
          ∈ (execute_scenario env instructions timeout_seconds).events)
    ∧ (∀ m, env.stopFail = some m →
        Event.warnLog ("Warning: Failed to stop container: " ++ m)
          ∈ (execute_scenario env instructions timeout_seconds).events)
    ∧ (∀ files f, env.traceStop = .dir files →
        f ∈ (organizeTrace files env.moveFails).failed →
        Event.warnLog ("Failed to move " ++ f)
          ∈ (execute_scenario env instructions timeout_seconds).events)
    ∧ (∀ (ts : TraceStopOutcome) (mf : List String) (sf : Option String),
        (execute_scenario { env with traceStop := ts, moveFails := mf, stopFail := sf }
            instructions timeout_seconds).result
          = (execute_scenario env instructions timeout_seconds).result
        ∧ exitCode (execute_scenario { env with traceStop := ts, moveFails := mf, stopFail := sf }
            instructions timeout_seconds).result
          = exitCode (execute_scenario env instructions timeout_seconds).result) := by
  refine ⟨stopCount_run env instructions timeout_seconds hc, ?_, ?_, ?_, ?_⟩
  · intro m hm
    rw [execute_scenario_events_split env instructions timeout_seconds hc]
    refine List.mem_append.mpr (Or.inr ?_)
    unfold cleanup
    rw [hc, hm]
    cases env.stopFail <;> simp
  · intro m hm
    rw [execute_scenario_events_split env instructions timeout_seconds hc]
    refine List.mem_append.mpr (Or.inr ?_)
    unfold cleanup
    rw [hc, hm]
    cases env.traceStop <;> simp
  · intro files f hdir hfmem
    rw [execute_scenario_events_split env instructions timeout_seconds hc]
    refine List.mem_append.mpr (Or.inr ?_)
    rw [cleanup_dir env files hc hdir]
    refine List.mem_cons_of_mem _ (List.mem_cons_of_mem _ ?_)
    exact List.mem_append.mpr (Or.inl (List.mem_map.mpr ⟨f, hfmem, rfl⟩))
  · intro ts mf sf
    have h := result_ignores_cleanup env instructions timeout_seconds ts mf sf
    exact ⟨h, by rw [h]⟩

/-- Witness for C3 on a concrete run in which the agent errors out and every
cleanup step fails. -/
theorem C3_witness :
    envBadCleanup.createFail = none
    ∧ (stopCount (execute_scenario envBadCleanup "task" 60).events = 1
      ∧ (∀ m, envBadCleanup.traceStop = .fails m →
          Event.warnLog ("Failed to stop trace: " ++ m)
            ∈ (execute_scenario envBadCleanup "task" 60).events)
      ∧ (∀ m, envBadCleanup.stopFail = some m →
          Event.warnLog ("Warning: Failed to stop container: " ++ m)
            ∈ (execute_scenario envBadCleanup "task" 60).events)
      ∧ (∀ files f, envBadCleanup.traceStop = .dir files →
          f ∈ (organizeTrace files envBadCleanup.moveFails).failed →
          Event.warnLog ("Failed to move " ++ f)
            ∈ (execute_scenario envBadCleanup "task" 60).events)
      ∧ (∀ (ts : TraceStopOutcome) (mf : List String) (sf : Option String),
          (execute_scenario { envBadCleanup with traceStop := ts, moveFails := mf, stopFail := sf }
              "task" 60).result
            = (execute_scenario envBadCleanup "task" 60).result
          ∧ exitCode (execute_scenario { envBadCleanup with traceStop := ts, moveFails := mf, stopFail := sf }
              "task" 60).result
            = exitCode (execute_scenario envBadCleanup "task" 60).result)) :=
  ⟨rfl, C3_cleanup_invariants envBadCleanup "task" 60 rfl⟩

/-- C4: if the required API credential (`ANTHROPIC_API_KEY`) is unset, or the
text read from standard input is empty after trimming whitespace, the process
exits with code 1 without ever creating or starting a sandbox container
(indeed without invoking any external operation at all). -/
theorem C4_fail_fast (menv : MainEnv)
    (h : menv.anthropic_api_key = none ∨ pyStrip menv.stdin = "") :
    (mainRun menv).exit = 1 ∧ (mainRun menv).events = [] := by
  rcases h with h | h
  · simp [mainRun, falsyStr, h]
  · unfold mainRun
    split
    · exact ⟨rfl, rfl⟩
    · rw [h]
      simp

/-- Witness for C4: a run with the credential unset and a run whose standard
input is whitespace only. -/
theorem C4_witness :
    (menvKeyless.anthropic_api_key = none
      ∧ (mainRun menvKeyless).exit = 1 ∧ (mainRun menvKeyless).events = [])
    ∧ (pyStrip menvBlank.stdin = ""
      ∧ (mainRun menvBlank).exit = 1 ∧ (mainRun menvBlank).events = []) :=
  ⟨⟨rfl, C4_fail_fast menvKeyless (Or.inl rfl)⟩,
   ⟨by decide, C4_fail_fast menvBlank (Or.inr (by decide))⟩⟩

/-- C7 counterexample: the claim says every returned `ExecutionResult` has a
boolean `timed_out` field, but the error-path return (lines 554-558) omits
the key entirely: a run whose container constructor raises yields a result
with status `error` and no `timed_out` field. -/
theorem C7_counterexample :
    (execute_scenario envErr "task" 60).result.status = "error"
    ∧ (execute_scenario envErr "task" 60).result.timed_out = none :=
  ⟨rfl, rfl⟩

/-- C7 (amended): every result of `execute_scenario` has status in
`success`/`warning`/`error`; on the success and timeout paths it carries an
output string and a boolean `timed_out`, while the error-path dictionary has
`output = None` and no `timed_out` key at all. -/
theorem C7_result_shape (env : Env) (instructions : String) (timeout_seconds : Nat) :
    resultShape (execute_scenario env instructions timeout_seconds).result = true := by
  unfold execute_scenario
  cases env.createFail with
  | some m => rfl
  | none =>
    cases env.startFail with
    | some m => rfl
    | none =>
      cases env.traceStartFail with
      | some m => rfl
      | none =>
        cases env.agent with
        | completes chunks doneTime =>
            simp only [agentPhase]
            split <;> rfl
        | runsPast chunks cancelAck => rfl
        | raisesAt chunks failTime msg =>
            simp only [agentPhase]
            split
            · rfl
            · split <;> rfl

/-- C5 counterexample: the claim quantifies over every trace directory, but
the organizer's glob patterns skip names that start with a dot, so a hidden
`.png` file is left at the top level instead of being moved to
`screenshots/`: for the directory `[".hidden.png"]` the claim's screenshot
set is `[".hidden.png"]` while the organizer moves nothing. -/
theorem C5_counterexample :
    specPngs [".hidden.png"] = [".hidden.png"]
    ∧ (organizeTrace [".hidden.png"] []).screenshots = []
    ∧ (organizeTrace [".hidden.png"] []).leftover = [".hidden.png"] := by
  refine ⟨?_, ?_, ?_⟩ <;> decide

/-- C5 (amended): for every trace directory whose top-level files do not
start with a dot (the glob patterns used by the organizer skip dotfiles), and
with no move failures, `screenshots/` receives exactly the `.png` files by
name, `videos/` exactly the `.mp4`/`.webm` files, `metadata/` exactly the
`.json` files, and the files of unrelated type stay at the top level;
moreover with a single failing file every *other* matched file is still
relocated to its directory (each move is attempted independently). -/
theorem C5_organize_partition (files : List String) (bad : String)
    (hvis : ∀ f ∈ files, strStartsWith f "." = false) :
    ((organizeTrace files []).screenshots = specPngs files
      ∧ List.Perm (organizeTrace files []).videos (specVideos files)
      ∧ (organizeTrace files []).metadata = specJsons files
      ∧ (organizeTrace files []).leftover = specOthers files)
    ∧ (∀ f ∈ files, f ≠ bad →
        (strEndsWith f ".png" = true → f ∈ (organizeTrace files [bad]).screenshots)
        ∧ ((strEndsWith f ".mp4" = true ∨ strEndsWith f ".webm" = true) →
            f ∈ (organizeTrace files [bad]).videos)
        ∧ (strEndsWith f ".json" = true → f ∈ (organizeTrace files [bad]).metadata)) := by
  have hglob : ∀ ext : String,
      files.filter (globMatch ext) = files.filter (fun f => strEndsWith f ext) := by
    intro ext
    exact List.filter_congr (fun a ha => globMatch_eq_endsWith (hvis a ha) ext)
  constructor
  · refine ⟨?_, ?_, ?_, ?_⟩
    · simp only [organizeTrace, globFiles]
      rw [filter_moved_nil, hglob ".png"]
      rfl
    · simp only [organizeTrace, globFiles]
      rw [filter_moved_nil, hglob ".mp4", hglob ".webm"]
      exact filter_or_perm _ _ files (fun a _ h => strEndsWith_mp4_not_webm h)
    · simp only [organizeTrace, globFiles]
      rw [filter_moved_nil, hglob ".json"]
      rfl
    · simp only [organizeTrace]
      refine List.filter_congr (fun a ha => ?_)
      unfold matchedByOrganizer
      rw [globMatch_eq_endsWith (hvis a ha), globMatch_eq_endsWith (hvis a ha),
        globMatch_eq_endsWith (hvis a ha), globMatch_eq_endsWith (hvis a ha)]
      simp [List.contains, List.elem]
  · intro f hf hne
    have hvisf := hvis f hf
    have hnc : List.contains [bad] f = false := by
      simp [List.contains, List.elem, beq_eq_false_iff_ne.mpr hne]
    refine ⟨?_, ?_, ?_⟩
    · intro hp
      simp only [organizeTrace, globFiles]
      refine List.mem_filter.mpr ⟨List.mem_filter.mpr ⟨hf, ?_⟩, ?_⟩
      · rw [globMatch_eq_endsWith hvisf]
        exact hp
      · rw [hnc]
        rfl
    · intro hv
      simp only [organizeTrace, globFiles]
      refine List.mem_filter.mpr ⟨List.mem_append.mpr ?_, by rw [hnc]; rfl⟩
      rcases hv with hv | hv
      · exact Or.inl (List.mem_filter.mpr ⟨hf, by rw [globMatch_eq_endsWith hvisf]; exact hv⟩)
      · exact Or.inr (List.mem_filter.mpr ⟨hf, by rw [globMatch_eq_endsWith hvisf]; exact hv⟩)
    · intro hj
      simp only [organizeTrace, globFiles]
      refine List.mem_filter.mpr ⟨List.mem_filter.mpr ⟨hf, ?_⟩, ?_⟩
      · rw [globMatch_eq_endsWith hvisf]
        exact hj
      · rw [hnc]
        rfl

/-- Witness for C5 (amended) on a concrete five-file trace directory with the
move of `b.mp4` failing. -/
theorem C5_witness :
    (∀ f ∈ ["a.png", "b.mp4", "c.webm", "d.json", "e.txt"], strStartsWith f "." = false)
    ∧ (((organizeTrace ["a.png", "b.mp4", "c.webm", "d.json", "e.txt"] []).screenshots
          = specPngs ["a.png", "b.mp4", "c.webm", "d.json", "e.txt"]
        ∧ List.Perm (organizeTrace ["a.png", "b.mp4", "c.webm", "d.json", "e.txt"] []).videos
            (specVideos ["a.png", "b.mp4", "c.webm", "d.json", "e.txt"])
        ∧ (organizeTrace ["a.png", "b.mp4", "c.webm", "d.json", "e.txt"] []).metadata
          = specJsons ["a.png", "b.mp4", "c.webm", "d.json", "e.txt"]
        ∧ (organizeTrace ["a.png", "b.mp4", "c.webm", "d.json", "e.txt"] []).leftover
          = specOthers ["a.png", "b.mp4", "c.webm", "d.json", "e.txt"])
      ∧ (∀ f ∈ ["a.png", "b.mp4", "c.webm", "d.json", "e.txt"], f ≠ "b.mp4" →
          (strEndsWith f ".png" = true
            → f ∈ (organizeTrace ["a.png", "b.mp4", "c.webm", "d.json", "e.txt"] ["b.mp4"]).screenshots)
          ∧ ((strEndsWith f ".mp4" = true ∨ strEndsWith f ".webm" = true)
            → f ∈ (organizeTrace ["a.png", "b.mp4", "c.webm", "d.json", "e.txt"] ["b.mp4"]).videos)
          ∧ (strEndsWith f ".json" = true
            → f ∈ (organizeTrace ["a.png", "b.mp4", "c.webm", "d.json", "e.txt"] ["b.mp4"]).metadata))) :=
  ⟨by decide, C5_organize_partition ["a.png", "b.mp4", "c.webm", "d.json", "e.txt"] "b.mp4" (by decide)⟩

/-- C6 counterexample: the claim says the organizer partitions the trace
directory *after* the container's stop operation has been invoked, but in the
`finally` block the organizing (lines 580-655) precedes `computer.stop()`
(line 658): on a clean run with a one-screenshot trace directory, the
organize event exists and the claim's after-stop predicate is false. -/
theorem C6_counterexample :
    organizeAfterStop (execute_scenario envTraced "task" 60).events = false
    ∧ ((execute_scenario envTraced "task" 60).events.findIdx? isOrganizeEvent).isSome
        = true := by
  constructor
  · rfl
  · rfl

/-- C6 (amended): on every run in which the container was created and a trace
artifact directory was produced, the organizer's partitioning occurs *after*
the trace-stop call but *before* the container's stop operation: the events
`stop trace`, `organize`, `stop container` appear in that order, and the stop
operation is invoked exactly once (so no stop precedes the organize). -/
theorem C6_organize_before_stop (env : Env) (instructions : String)
    (timeout_seconds : Nat) (files : List String)
    (hc : env.createFail = none) (ht : env.traceStop = .dir files) :
    List.Sublist
      [Event.stopTraceCall, Event.organizeCall files, Event.stopContainer]
      (execute_scenario env instructions timeout_seconds).events
    ∧ stopCount (execute_scenario env instructions timeout_seconds).events = 1 := by
  refine ⟨?_, stopCount_run env instructions timeout_seconds hc⟩
  rw [execute_scenario_events_split env instructions timeout_seconds hc,
    cleanup_dir env files hc ht]
  refine List.Sublist.trans ?_ (List.sublist_append_right _ _)
  refine List.Sublist.cons₂ _ (List.Sublist.cons₂ _ ?_)
  refine List.Sublist.trans ?_ (List.sublist_append_right _ _)
  exact List.Sublist.cons₂ _ (List.nil_sublist _)

/-- Witness for C6 (amended) on a concrete clean run with a one-screenshot
trace directory. -/
theorem C6_witness :
    envTraced.createFail = none
    ∧ envTraced.traceStop = .dir ["a.png"]
    ∧ (List.Sublist
        [Event.stopTraceCall, Event.organizeCall ["a.png"], Event.stopContainer]
        (execute_scenario envTraced "task" 60).events
      ∧ stopCount (execute_scenario envTraced "task" 60).events = 1) :=
  ⟨rfl, rfl, C6_organize_before_stop envTraced "task" 60 ["a.png"] rfl rfl⟩

/-- C10 counterexample: the claim says the write target is `"/tmp/"`
concatenated with `destination_filename` whenever the latter is given, but an
explicitly given *empty* filename falls back to the default instead (Python's
`or` is truthiness-based): the target is `/tmp/artifact-5.zip`, not `/tmp/`. -/
theorem C10_counterexample :
    containerPath "5" (some "") = "/tmp/artifact-5.zip"
    ∧ containerPath "5" (some "") ≠ "/tmp/" ++ "" :=
  ⟨rfl, by decide⟩

/-- C10 (amended): for every artifact id and every nonempty
`destination_filename` the in-container write target is exactly `"/tmp/"`
concatenated with the filename, with no sanitization or validation; a missing
(or empty, via Python `or` truthiness) filename yields
`/tmp/artifact-<id>.zip`; consequently a filename containing `..` components
resolves outside `/tmp`. -/
theorem C10_container_path (artifact_id f : String) (hf : f ≠ "") :
    containerPath artifact_id (some f) = "/tmp/" ++ f
    ∧ containerPath artifact_id none = "/tmp/" ++ ("artifact-" ++ artifact_id ++ ".zip")
    ∧ normalizePath (containerPath artifact_id (some "../../etc/passwd"))
        = ["etc", "passwd"]
    ∧ (normalizePath (containerPath artifact_id (some "../../etc/passwd"))).head?
        ≠ some "tmp" := by
  have hpath : containerPath artifact_id (some "../../etc/passwd")
      = "/tmp/../../etc/passwd" := rfl
  refine ⟨?_, rfl, ?_, ?_⟩
  · have hbeq : (f == "") = false := beq_eq_false_iff_ne.mpr hf
    simp [containerPath, downloadFilename, hbeq]
  · rw [hpath]; decide
  · rw [hpath]; decide

/-- Witness for C10 (amended) at a concrete nonempty filename. -/
theorem C10_witness :
    "x.zip" ≠ ""
    ∧ (containerPath "7" (some "x.zip") = "/tmp/" ++ "x.zip"
      ∧ containerPath "7" none = "/tmp/" ++ ("artifact-" ++ "7" ++ ".zip")
      ∧ normalizePath (containerPath "7" (some "../../etc/passwd")) = ["etc", "passwd"]
      ∧ (normalizePath (containerPath "7" (some "../../etc/passwd"))).head?
          ≠ some "tmp") :=
  ⟨by decide, C10_container_path "7" "x.zip" (by decide)⟩

/-- C8: the artifact-listing adapter extracts the numeric run ID correctly
from every URL of the form `<prefix>/actions/runs/<digits>` (leftmost-match
regex semantics: the prefix contains no earlier match of the pattern), and
uses it to build the API request URL; for every URL (a string containing
`github.com`) in which the pattern does not match, it returns a structured
error naming the expected format instead of raising. -/
theorem C8_run_id_extraction :
    (∀ (p d : List Char),
        strHasSub (String.mk (p ++ runsLit ++ d)) "github.com" = true →
        cleanBefore (runsLit ++ d) p = true →
        d ≠ [] → (∀ c ∈ d, c.isDigit = true) →
        parseRunId (String.mk (p ++ runsLit ++ d)) = .ok (String.mk d))
    ∧ (∀ s : String, strHasSub s "github.com" = true →
        findRunsMatch s.data = none →
        parseRunId s = .error ("Could not parse workflow run ID from URL: " ++ s ++
          ". Expected format: https://github.com/owner/repo/actions/runs/ID"))
    ∧ (∀ (env : GhEnv) (outcome : HttpOutcome) (wfid run_id : String),
        falsyStr env.token = false → (env.owner == "" || env.repo == "") = false →
        parseRunId wfid = .ok run_id →
        (list_github_artifacts env outcome wfid).requestUrl
          = some (artifactsUrl env.owner env.repo run_id)) := by
  refine ⟨?_, ?_, ?_⟩
  · intro p d hgit hclean hne hdig
    unfold parseRunId
    rw [hgit]
    simp only [if_true]
    show (match findRunsMatch (p ++ runsLit ++ d) with
      | some ds => Except.ok (String.mk ds)
      | none => Except.error ("Could not parse workflow run ID from URL: "
          ++ String.mk (p ++ runsLit ++ d)
          ++ ". Expected format: https://github.com/owner/repo/actions/runs/ID"))
      = Except.ok (String.mk d)
    rw [List.append_assoc, findRunsMatch_skip (runsLit ++ d) p hclean,
      findRunsMatch_at_lit d hne hdig]
  · intro s hgit hnone
    unfold parseRunId
    rw [hgit]
    simp only [if_true]
    rw [hnone]
  · intro env outcome wfid run_id htok hctx hparse
    unfold list_github_artifacts
    rw [htok, hctx, hparse]
    simp only [Bool.false_eq_true, if_false]

/-- Witness for C8: a well-formed run URL, an unparseable URL, and a concrete
adapter call that builds the request URL from the extracted ID. -/
theorem C8_witness :
    (strHasSub (String.mk ("https://github.com/o/r".data ++ runsLit ++ "123".data))
        "github.com" = true
      ∧ cleanBefore (runsLit ++ "123".data) "https://github.com/o/r".data = true
      ∧ parseRunId (String.mk ("https://github.com/o/r".data ++ runsLit ++ "123".data))
          = .ok (String.mk "123".data))
    ∧ parseRunId "https://github.com/o/r/pulls/7"
        = .error ("Could not parse workflow run ID from URL: "
            ++ "https://github.com/o/r/pulls/7"
            ++ ". Expected format: https://github.com/owner/repo/actions/runs/ID")
    ∧ (list_github_artifacts ghEnvOk .timeout "https://github.com/o/r/actions/runs/123").requestUrl
        = some (artifactsUrl ghEnvOk.owner ghEnvOk.repo "123") :=
  ⟨⟨by decide, by decide,
    C8_run_id_extraction.1 "https://github.com/o/r".data "123".data
      (by decide) (by decide) (by decide) (by decide)⟩,
   C8_run_id_extraction.2.1 "https://github.com/o/r/pulls/7" (by decide) (by decide),
   C8_run_id_extraction.2.2 ghEnvOk .timeout "https://github.com/o/r/actions/runs/123" "123"
     rfl rfl (by rfl)⟩

/-- C9: every invocation of each of the three GitHub tool adapters returns a
structured dictionary (serialized with `json.dumps`) and never raises past
its boundary: the returned value is always either an error dictionary (keys
`error` / `error, message`) or the adapter's whitelisted success dictionary;
and a missing token, missing PR context, a request timeout, a transport
failure, a non-success HTTP status, or (for the download adapter) a failing
container write each yield the structured *error* form. -/
theorem C9_adapters_structured :
    (∀ (env : GhEnv) (p r : HttpOutcome) (limit : Nat),
        errShape (list_github_workflows env p r limit) = true
        ∨ workflowsOkShape (list_github_workflows env p r limit) = true)
    ∧ (∀ (env : GhEnv) (o : HttpOutcome) (wfid : String),
        errShape (list_github_artifacts env o wfid).response = true
        ∨ artifactsOkShape (list_github_artifacts env o wfid).response = true)
    ∧ (∀ (env : GhEnv) (o : HttpOutcome) (w : Except String Unit) (aid : String)
          (df : Option String),
        errShape (download_github_artifact env o w aid df) = true
        ∨ downloadOkShape (download_github_artifact env o w aid df) = true)
    ∧ (∀ (env : GhEnv) (p r : HttpOutcome) (limit : Nat),
        (falsyStr env.token = true ∨ env.owner = "" ∨ env.repo = "" ∨ env.prNumber = ""
          ∨ isFailureOutcome p = true ∨ isFailureOutcome r = true) →
        errShape (list_github_workflows env p r limit) = true)
    ∧ (∀ (env : GhEnv) (o : HttpOutcome) (wfid : String),
        (falsyStr env.token = true ∨ env.owner = "" ∨ env.repo = ""
          ∨ isFailureOutcome o = true) →
        errShape (list_github_artifacts env o wfid).response = true)
    ∧ (∀ (env : GhEnv) (o : HttpOutcome) (w : Except String Unit) (aid : String)
          (df : Option String),
        (falsyStr env.token = true ∨ env.owner = "" ∨ env.repo = ""
          ∨ isFailureOutcome o = true) →
        errShape (download_github_artifact env o w aid df) = true)
    ∧ (∀ (env : GhEnv) (o : HttpOutcome) (m : String) (aid : String)
          (df : Option String),
        errShape (download_github_artifact env o (.error m) aid df) = true) :=
  ⟨workflows_shape, artifacts_shape, download_shape, workflows_err, artifacts_err,
   download_err, download_write_err⟩

/-- Witness for C9: concrete failure-mode calls of each adapter (missing
token, transport failure, HTTP 404, failing container write). -/
theorem C9_witness :
    (errShape (list_github_workflows ghEnvNoToken .timeout .timeout 50) = true
      ∨ workflowsOkShape (list_github_workflows ghEnvNoToken .timeout .timeout 50) = true)
    ∧ errShape (list_github_workflows ghEnvNoToken .timeout .timeout 50) = true
    ∧ errShape (list_github_artifacts ghEnvOk (.transportError "conn reset") "123").response
        = true
    ∧ errShape (download_github_artifact ghEnvOk (.response 404 "nope" none) (.ok ()) "9" none)
        = true
    ∧ errShape (download_github_artifact ghEnvOk (.response 200 "bytes" none)
        (.error "disk full") "9" none) = true :=
  ⟨C9_adapters_structured.1 ghEnvNoToken .timeout .timeout 50,
   C9_adapters_structured.2.2.2.1 ghEnvNoToken .timeout .timeout 50 (Or.inl rfl),
   C9_adapters_structured.2.2.2.2.1 ghEnvOk (.transportError "conn reset") "123"
     (Or.inr (Or.inr (Or.inr rfl))),
   C9_adapters_structured.2.2.2.2.2.1 ghEnvOk (.response 404 "nope" none) (.ok ()) "9" none
     (Or.inr (Or.inr (Or.inr (by decide)))),
   C9_adapters_structured.2.2.2.2.2.2 ghEnvOk (.response 200 "bytes" none) "disk full" "9" none⟩

end CuaAgent
